import Mathlib

/-!
Shallow embedding of the docker-ovs-plugin network driver
(src/ovs/driver.go) and verification of spec claims about it.

Go source conventions embedded here:
  - Go errors are modelled as the `err` constructor of `Res`;
  - Go runtime panics (nil-map-entry dereference, out-of-range string
    slice, out-of-range list index) are modelled as the `crash`
    constructor of `Res`;
  - external effects (netlink calls, OVSDB calls, the docker-client
    network inspection) are modelled by an environment `Env` of
    result oracles, and each executed effect is recorded in an event
    trace so that ordering and absence of effects can be stated.
-/

/-- Result of a Go computation: a normal value, a returned Go `error`
(with its message), or a runtime panic. -/
inductive Res (α : Type) where
  | ok : α → Res α
  | err : String → Res α
  | crash : Res α
deriving Repr, DecidableEq

/-- Constant string from driver.go. -/
def ovsPortPrefix : String := "ovs-veth0-"

/-- Constant string from driver.go. -/
def bridgePrefix : String := "ovsbr-"

/-- Constant string from driver.go. -/
def containerEthName : String := "eth"

/-- Constant string from driver.go: the well-known top-level key of the
generic options map. -/
def optionKey : String := "com.docker.network.generic"

/-- Constant string from driver.go. -/
def mtuOption : String := "net.gopher.ovs.bridge.mtu"

/-- Constant string from driver.go. -/
def modeOption : String := "net.gopher.ovs.bridge.mode"

/-- Constant string from driver.go. -/
def bridgeNameOption : String := "net.gopher.ovs.bridge.name"

/-- Constant string from driver.go. -/
def bindInterfaceOption : String := "net.gopher.ovs.bridge.bind_interface"

/-- Constant string from driver.go. -/
def modeNAT : String := "nat"

/-- Constant string from driver.go. -/
def modeFlat : String := "flat"

/-- Constant from driver.go. -/
def defaultMTU : Int := 1500

/-- Constant from driver.go (`defaultMode = modeNAT`). -/
def defaultMode : String := modeNAT

/-- The `validModes` set from driver.go, as the list of its keys. -/
def validModes : List String := [ modeNAT, modeFlat ]

/-- String-valued options map (Go `map[string]string`), as an
association list; a Go nil map is the empty list. -/
abbrev Options := List (String × String)

/-- Numeric value of a decimal digit character. -/
def digitVal (c : Char) : Nat := c.toNat - 48

/-- Parse a nonempty all-digit character list as a natural number. -/
def parseDigits (cs : List Char) : Option Nat :=
  match cs with
  | [] => none
  | _ =>
    if cs.all Char.isDigit then
      some (cs.foldl (fun a c => a * 10 + digitVal c) 0)
    else none

/-- Magnitude bound of Go 64-bit int (2 to the 63rd power). -/
def int64Bound : Int := 9223372036854775808

/-- Embeds Go `strconv.Atoi`: optional sign, then decimal digits
consuming the whole string; any other input, and any value outside the
64-bit signed range, yields an error (`none`). -/
def atoi (s : String) : Option Int :=
  match s.data with
  | '+' :: rest =>
    (parseDigits rest).bind
      (fun n => if (n : Int) ≤ int64Bound - 1 then some ((n : Int)) else none)
  | '-' :: rest =>
    (parseDigits rest).bind
      (fun n => if (n : Int) ≤ int64Bound then some (-((n : Int))) else none)
  | cs =>
    (parseDigits cs).bind
      (fun n => if (n : Int) ≤ int64Bound - 1 then some ((n : Int)) else none)

/-- Embeds `truncateID` from driver.go: Go `id[:5]`, which panics
(`none`) when the identifier is shorter than five characters. -/
def truncateID (id : String) : Option String :=
  if 5 ≤ id.length then some (id.take 5) else none

/-- Embeds `getBridgeMTU` from driver.go: the parsed MTU option on
parse success, the default 1500 otherwise; never an error. A missing
key reads as the empty string, as a Go map read of a missing key does. -/
def getBridgeMTU (options : Options) : Except String Int :=
  match atoi ((options.lookup mtuOption).getD "") with
  | some mtu => Except.ok mtu
  | none => Except.ok defaultMTU

/-- Embeds `getBridgeName` from driver.go: derived name from the
bridge prefix and the truncated identifier, overridden by the name
option when present; `truncateID` is evaluated first even when the
option is present, so a short identifier always panics. -/
def getBridgeName (id : String) (options : Options) : Res String :=
  match truncateID id with
  | none => Res.crash
  | some tid =>
    let derived := bridgePrefix ++ tid
    match options.lookup bridgeNameOption with
    | some name => Res.ok name
    | none => Res.ok derived

/-- Embeds `getBridgeMode` from driver.go: the default mode when the
option is absent, the given value when it is a member of `validModes`,
an error otherwise. -/
def getBridgeMode (options : Options) : Except String String :=
  match options.lookup modeOption with
  | none => Except.ok defaultMode
  | some mode =>
    if validModes.contains mode then Except.ok mode
    else Except.error (mode ++ " is not a valid mode")

/-- Embeds `getBindInterface` from driver.go: the option value when
present, the empty string otherwise; never an error. -/
def getBindInterface (options : Options) : Except String String :=
  Except.ok ((options.lookup bindInterfaceOption).getD "")

/-- Embeds the `NetworkState` struct from driver.go. -/
structure NetworkState where
  BridgeName : String
  MTU : Int
  Mode : String
  Gateway : String
  GatewayMask : String
  FlatBindInterface : String
deriving Repr, DecidableEq

/-- Association-list image of the Go map read `d.networks[id]` in its
comma-ok form: the first binding of the key, if any. -/
def mapLookup (m : List (String × NetworkState)) (k : String) :
    Option NetworkState :=
  match m with
  | [] => none
  | p :: t => if p.1 = k then some p.2 else mapLookup t k

/-- Association-list image of the Go map deletion `delete(d.networks, id)`. -/
def mapErase (m : List (String × NetworkState)) (k : String) :
    List (String × NetworkState) :=
  match m with
  | [] => []
  | p :: t => if p.1 = k then mapErase t k else p :: mapErase t k

/-- Association-list image of the Go map insertion
`d.networks[id] = ns`: at most one binding per key. -/
def mapInsert (m : List (String × NetworkState)) (k : String)
    (v : NetworkState) : List (String × NetworkState) :=
  (k, v) :: mapErase m k

/-- Embeds the part of the `Driver` struct from driver.go that the
lifecycle handlers read and write: the driver name, whether the docker
client is non-nil, and the in-memory network registry. -/
structure DriverState where
  name : String
  hasDockerClient : Bool
  networks : List (String × NetworkState)
deriving Repr, DecidableEq

/-- Embeds the `netlink.Veth` value built by `vethPair` in driver.go. -/
structure VethPair where
  Name : String
  PeerName : String
deriving Repr, DecidableEq

/-- Embeds `vethPair` from driver.go. -/
def vethPair (suffix : String) : VethPair :=
  { Name := ovsPortPrefix ++ suffix, PeerName := "ethc" ++ suffix }

/-- The fields of a docker-client `InspectNetwork` answer that
`findNetworkState` reads: the owning driver name, the per-network
options, and the IPAM-config gateway strings in order. -/
structure InspectedNetwork where
  Driver : String
  NetOptions : Options
  IPAMGateways : List String
deriving Repr, DecidableEq

/-- One externally visible effect of a lifecycle handler. Kernel
effects carry link names; switch effects carry bridge, port and tag. -/
inductive Event where
  | linkAdd (name peer : String)
  | linkSetUp (name : String)
  | linkDel (name peer : String)
  | initBridge (id : String)
  | deleteBridge (name : String)
  | addPort (bridge port : String) (tag : Nat)
  | delPort (bridge port : String)
  | inspect (id : String)
deriving Repr, DecidableEq

/-- A kernel (netlink) mutation: link creation, bring-up or deletion. -/
def Event.isKernelMutation : Event → Bool
  | Event.linkAdd _ _ => true
  | Event.linkSetUp _ => true
  | Event.linkDel _ _ => true
  | _ => false

/-- A switch (OVSDB) mutation: bridge or port creation or deletion. -/
def Event.isSwitchMutation : Event → Bool
  | Event.initBridge _ => true
  | Event.deleteBridge _ => true
  | Event.addPort _ _ _ => true
  | Event.delPort _ _ => true
  | _ => false

/-- A fallback lookup through the docker client. -/
def Event.isInspect : Event → Bool
  | Event.inspect _ => true
  | _ => false

/-- Result oracles for the external collaborators the driver calls:
netlink, the OVSDB bridge manager, and the docker-client network
inspection. Each call site consults the oracle and records an event. -/
structure Env where
  linkAdd : VethPair → Except String Unit
  linkSetUp : VethPair → Except String Unit
  linkDel : VethPair → Except String Unit
  initBridge : String → Except String Unit
  deleteBridge : String → Except String Unit
  addPort : String → String → Nat → Except String Unit
  delPort : String → String → Except String Unit
  inspectNetwork : String → Except String InspectedNetwork

/-- Embeds the dotted-quad acceptance of Go
`net.ParseIP(s).To4() != nil` for IPv4 literals: four dot-separated
decimal fields, one to three digits, value at most 255, no leading
zero. -/
def isIPv4 (s : String) : Bool :=
  let parts := s.splitOn "."
  parts.length == 4 && parts.all (fun p =>
    let cs := p.data
    cs.length ≥ 1 && cs.length ≤ 3 && cs.all Char.isDigit &&
    (cs.length == 1 || cs.head? != some '0') &&
    cs.foldl (fun a c => a * 10 + digitVal c) 0 ≤ 255)

/-- Embeds the gateway-selection loop of `findNetworkState`: the first
IPAM gateway string that parses as IPv4, the empty string if none does. -/
def firstIPv4Gateway : List String → String
  | [] => ""
  | g :: rest => if isIPv4 g then g else firstIPv4Gateway rest

/-- Embeds `setupNetworkState` from driver.go: resolves bridge name,
MTU, mode and bind interface from the options, registers the resulting
`NetworkState` under the identifier, then initializes the bridge; on
bridge-initialization failure the fresh registry entry is deleted and
the error returned. Returns the result, the updated driver state, and
the event trace. -/
def setupNetworkState (env : Env) (d : DriverState) (id : String)
    (options : Options) (gateway : String) :
    Res NetworkState × DriverState × List Event :=
  match getBridgeName id options with
  | Res.crash => (Res.crash, d, [])
  | Res.err e => (Res.err e, d, [])
  | Res.ok bridgeName =>
    match getBridgeMTU options with
    | Except.error e => (Res.err e, d, [])
    | Except.ok mtu =>
      match getBridgeMode options with
      | Except.error e => (Res.err e, d, [])
      | Except.ok mode =>
        match getBindInterface options with
        | Except.error e => (Res.err e, d, [])
        | Except.ok bindInterface =>
          let ns : NetworkState :=
            { BridgeName := bridgeName, MTU := mtu, Mode := mode,
              Gateway := gateway, GatewayMask := "24",
              FlatBindInterface := bindInterface }
          let d1 : DriverState :=
            { d with networks := mapInsert d.networks id ns }
          match env.initBridge id with
          | Except.error e =>
            (Res.err e, { d1 with networks := mapErase d1.networks id },
             [ Event.initBridge id ])
          | Except.ok _ => (Res.ok ns, d1, [ Event.initBridge id ])

/-- Embeds `findNetworkState` from driver.go: a registry hit returns
the stored state; on a miss, a nil docker client is an error, otherwise
one `InspectNetwork` call is made, a foreign driver name is the error
message of line 82, and otherwise the state is rebuilt through
`setupNetworkState` with the first IPv4 gateway of the inspected IPAM
configuration. -/
def findNetworkState (env : Env) (d : DriverState) (id : String) :
    Res NetworkState × DriverState × List Event :=
  match mapLookup d.networks id with
  | some ns => (Res.ok ns, d, [])
  | none =>
    if d.hasDockerClient then
      match env.inspectNetwork id with
      | Except.error e => (Res.err e, d, [ Event.inspect id ])
      | Except.ok network =>
        if network.Driver = d.name then
          let s := setupNetworkState env d id network.NetOptions
            (firstIPv4Gateway network.IPAMGateways)
          (s.1, s.2.1, Event.inspect id :: s.2.2)
        else (Res.err "Not our network", d, [ Event.inspect id ])
    else
      (Res.err "Docker client disabled; unable to get network state", d, [])

/-- A value of the Go `interface\x7b\x7d` type as it appears in the
generic options map: a string, a nested string-keyed map, or anything
else. -/
inductive GoValue where
  | str : String → GoValue
  | dict : List (String × GoValue) → GoValue
  | other : GoValue

/-- Embeds `stringOptions` from driver.go: looks up the well-known key
in the generic options map and keeps only the string-valued entries of
the nested map found there; every other shape yields the nil map. -/
def stringOptions (createOptions : Option (List (String × GoValue))) :
    Options :=
  match createOptions with
  | none => []
  | some opts =>
    match opts.lookup optionKey with
    | some (GoValue.dict m) =>
      m.filterMap (fun p =>
        match p.2 with
        | GoValue.str s => some (p.1, s)
        | _ => none)
    | _ => []

/-- One element of the request's IPv4 IPAM data list. -/
structure IPAMData where
  Gateway : String
deriving Repr, DecidableEq

/-- The fields of a CreateNetwork request that the handler reads. -/
structure CreateNetworkRequest where
  NetworkID : String
  ReqOptions : Option (List (String × GoValue))
  IPv4Data : List IPAMData

/-- Forgets the network state a successful setup returned, as the Go
`CreateNetwork` does when it returns only the error. -/
def resUnit : Res NetworkState → Res Unit
  | Res.ok _ => Res.ok ()
  | Res.err e => Res.err e
  | Res.crash => Res.crash

/-- Embeds `CreateNetwork` from driver.go: decodes the string options,
reads `r.IPv4Data[0].Gateway` — a panic when the list is empty — and
delegates to `setupNetworkState`. -/
def CreateNetwork (env : Env) (d : DriverState)
    (r : CreateNetworkRequest) : Res Unit × DriverState × List Event :=
  match r.IPv4Data with
  | [] => (Res.crash, d, [])
  | ipam :: _ =>
    let s := setupNetworkState env d r.NetworkID
      (stringOptions r.ReqOptions) ipam.Gateway
    (resUnit s.1, s.2.1, s.2.2)

/-- The field of a DeleteNetwork request that the handler reads. -/
structure DeleteNetworkRequest where
  NetworkID : String

/-- Embeds `DeleteNetwork` from driver.go: reads
`d.networks[r.NetworkID].BridgeName` — a nil-entry dereference, hence a
panic, when the identifier is unregistered — then deletes the bridge,
and only on success removes the registry entry. -/
def DeleteNetwork (env : Env) (d : DriverState)
    (r : DeleteNetworkRequest) : Res Unit × DriverState × List Event :=
  match mapLookup d.networks r.NetworkID with
  | none => (Res.crash, d, [])
  | some ns =>
    match env.deleteBridge ns.BridgeName with
    | Except.error e => (Res.err e, d, [ Event.deleteBridge ns.BridgeName ])
    | Except.ok _ =>
      (Res.ok (), { d with networks := mapErase d.networks r.NetworkID },
       [ Event.deleteBridge ns.BridgeName ])

/-- The fields of a Join request that the handler reads. -/
structure JoinRequest where
  NetworkID : String
  EndpointID : String

/-- The response fields Join fills in: the host-side source name to be
moved into the container, the destination prefix, and the gateway. -/
structure JoinResponse where
  SrcName : String
  DstPrefix : String
  Gateway : String
deriving Repr, DecidableEq

/-- Embeds `Join` from driver.go, in source order: build the veth pair
from the truncated endpoint identifier (a panic on a short identifier),
create it, bring it up, then resolve the network state — falling back
to the docker client when unregistered — and finally attach the
host-side port to the resolved bridge with tag 0. -/
def Join (env : Env) (d : DriverState) (r : JoinRequest) :
    Res JoinResponse × DriverState × List Event :=
  match truncateID r.EndpointID with
  | none => (Res.crash, d, [])
  | some tid =>
    let lv := vethPair tid
    match env.linkAdd lv with
    | Except.error e => (Res.err e, d, [ Event.linkAdd lv.Name lv.PeerName ])
    | Except.ok _ =>
      match env.linkSetUp lv with
      | Except.error e =>
        (Res.err e, d,
         [ Event.linkAdd lv.Name lv.PeerName, Event.linkSetUp lv.Name ])
      | Except.ok _ =>
        let f := findNetworkState env d r.NetworkID
        let pre := Event.linkAdd lv.Name lv.PeerName ::
          Event.linkSetUp lv.Name :: f.2.2
        match f.1 with
        | Res.crash => (Res.crash, f.2.1, pre)
        | Res.err e => (Res.err e, f.2.1, pre)
        | Res.ok ns =>
          match env.addPort ns.BridgeName lv.Name 0 with
          | Except.error e =>
            (Res.err e, f.2.1,
             pre ++ [ Event.addPort ns.BridgeName lv.Name 0 ])
          | Except.ok _ =>
            (Res.ok { SrcName := lv.PeerName, DstPrefix := containerEthName,
                      Gateway := ns.Gateway },
             f.2.1, pre ++ [ Event.addPort ns.BridgeName lv.Name 0 ])

/-- The fields of a Leave request that the handler reads. -/
structure LeaveRequest where
  NetworkID : String
  EndpointID : String

/-- Embeds `Leave` from driver.go, in source order: build the veth pair
from the truncated endpoint identifier (a panic on a short identifier),
delete it — the deletion error is logged and ignored, the attempt
always happens — then read
`d.networks[r.NetworkID].BridgeName` (a nil-entry dereference, hence a
panic, when unregistered) and delete the prefixed port from that
bridge, propagating the port-deletion error. -/
def Leave (env : Env) (d : DriverState) (r : LeaveRequest) :
    Res Unit × DriverState × List Event :=
  match truncateID r.EndpointID with
  | none => (Res.crash, d, [])
  | some tid =>
    let lv := vethPair tid
    let delEv : List Event := [ Event.linkDel lv.Name lv.PeerName ]
    let portID := ovsPortPrefix ++ tid
    match mapLookup d.networks r.NetworkID with
    | none => (Res.crash, d, delEv)
    | some ns =>
      match env.delPort ns.BridgeName portID with
      | Except.error e =>
        (Res.err e, d, delEv ++ [ Event.delPort ns.BridgeName portID ])
      | Except.ok _ =>
        (Res.ok (), d, delEv ++ [ Event.delPort ns.BridgeName portID ])

/-- An environment in which every external call succeeds; the fallback
inspection answers with an error, as for a nonexistent network. -/
def envAllOk : Env :=
  { linkAdd := fun _ => Except.ok (),
    linkSetUp := fun _ => Except.ok (),
    linkDel := fun _ => Except.ok (),
    initBridge := fun _ => Except.ok (),
    deleteBridge := fun _ => Except.ok (),
    addPort := fun _ _ _ => Except.ok (),
    delPort := fun _ _ => Except.ok (),
    inspectNetwork := fun _ => Except.error "network not found" }

/-- Like `envAllOk`, but bridge initialization fails. -/
def envInitFail : Env :=
  { envAllOk with initBridge := fun _ => Except.error "ovsdb down" }

/-- A network record owned by a different driver, as the docker client
could report it. -/
def foreignNetwork : InspectedNetwork :=
  { Driver := "bridge", NetOptions := [], IPAMGateways := [] }

/-- Like `envAllOk`, but the fallback inspection reports a network
owned by a different driver. -/
def envForeign : Env :=
  { envAllOk with inspectNetwork := fun _ => Except.ok foreignNetwork }

/-- Like `envAllOk`, but both the link deletion and the port deletion
fail, to exercise the error policy of Leave. -/
def envLeaveFail : Env :=
  { envAllOk with
    linkDel := fun _ => Except.error "no such link",
    delPort := fun _ _ => Except.error "port missing" }

/-- A fresh driver named "ovs" with a docker client and an empty
registry, as `NewDriver` builds it. -/
def dOvs : DriverState :=
  { name := "ovs", hasDockerClient := true, networks := [] }

/-- The network state that a successful default-option creation with
gateway 10.0.0.1 would register for the identifier "net1x". -/
def nsNet1 : NetworkState :=
  { BridgeName := "ovsbr-net1x", MTU := 1500, Mode := "nat",
    Gateway := "10.0.0.1", GatewayMask := "24", FlatBindInterface := "" }

/-- A driver whose registry maps "net1" to `nsNet1`. -/
def dWithNet1 : DriverState :=
  { name := "ovs", hasDockerClient := true,
    networks := [ ("net1", nsNet1) ] }

/-- CreateNetwork request for "net1x" with no options and one IPv4
IPAM allocation whose gateway is 10.0.0.1. -/
def rCreate1 : CreateNetworkRequest :=
  { NetworkID := "net1x", ReqOptions := none,
    IPv4Data := [ { Gateway := "10.0.0.1" } ] }

/-- CreateNetwork request for the four-character identifier "net1"
with no options and IPAM gateway 10.0.0.1. -/
def rCreateNet1 : CreateNetworkRequest :=
  { NetworkID := "net1", ReqOptions := none,
    IPv4Data := [ { Gateway := "10.0.0.1" } ] }

/-- Join request for an unregistered network identifier. -/
def rJoinMiss : JoinRequest :=
  { NetworkID := "net99", EndpointID := "endpoint12345" }

/-- Join request for the registered network "net1". -/
def rJoin1 : JoinRequest :=
  { NetworkID := "net1", EndpointID := "endpoint12345" }

/-- DeleteNetwork request for an unregistered network identifier. -/
def rDelMiss : DeleteNetworkRequest := { NetworkID := "net99" }

/-- Leave request for the registered network "net1". -/
def rLeave1 : LeaveRequest :=
  { NetworkID := "net1", EndpointID := "endpoint12345" }

/-- Leave request for an unregistered network identifier. -/
def rLeaveMiss : LeaveRequest :=
  { NetworkID := "net99", EndpointID := "endpoint12345" }

/-- The network state that `setupNetworkState` registers once bridge
name and mode have resolved: the MTU is the parsed option or the
default, the mask the fixed placeholder, the bind interface the raw
option or empty. -/
def resolvedState (options : Options) (bn md gateway : String) :
    NetworkState :=
  { BridgeName := bn,
    MTU := (atoi ((options.lookup mtuOption).getD "")).getD defaultMTU,
    Mode := md, Gateway := gateway, GatewayMask := "24",
    FlatBindInterface := (options.lookup bindInterfaceOption).getD "" }

/-- Erasing a key removes every binding of it. -/
theorem mapLookup_mapErase_self (m : List (String × NetworkState))
    (k : String) : mapLookup (mapErase m k) k = none := by
  induction m with
  | nil => rfl
  | cons p t ih =>
    by_cases h : p.1 = k
    · simpa [mapErase, h] using ih
    · simpa [mapErase, mapLookup, h] using ih

/-- The MTU resolver returns the parsed option when it parses and the
default otherwise; it never returns an error. -/
theorem getBridgeMTU_eq (options : Options) :
    getBridgeMTU options =
      Except.ok ((atoi ((options.lookup mtuOption).getD "")).getD defaultMTU) := by
  unfold getBridgeMTU
  cases atoi ((options.lookup mtuOption).getD "") <;> rfl

/-- Claim C10: a CreateNetwork request whose IPv4 IPAM data list is
empty does not produce an error return; the handler indexes the first
element of the empty list and panics, leaving the registry untouched
and performing no external call. -/
theorem createNetwork_empty_ipam_crashes (env : Env) (d : DriverState)
    (r : CreateNetworkRequest) (hEmpty : r.IPv4Data = []) :
    (CreateNetwork env d r).1 = Res.crash ∧
    (CreateNetwork env d r).2.1 = d ∧
    (CreateNetwork env d r).2.2 = [] := by
  simp [CreateNetwork, hEmpty]

/-- Witness for C10 at a concrete request with no IPv4 IPAM data. -/
theorem createNetwork_empty_ipam_crashes_witness :
    (CreateNetwork envAllOk dOvs
      { NetworkID := "net1x", ReqOptions := none, IPv4Data := [] }).1 =
        Res.crash ∧
    (CreateNetwork envAllOk dOvs
      { NetworkID := "net1x", ReqOptions := none, IPv4Data := [] }).2.1 =
        dOvs ∧
    (CreateNetwork envAllOk dOvs
      { NetworkID := "net1x", ReqOptions := none, IPv4Data := [] }).2.2 =
        [] :=
  createNetwork_empty_ipam_crashes envAllOk dOvs
    { NetworkID := "net1x", ReqOptions := none, IPv4Data := [] } rfl

/-- Claim C3 counterexample: DeleteNetwork on an unregistered
identifier does not return an error value; it panics on the nil
registry entry (the result is the crash outcome, not an err outcome),
though indeed no bridge teardown is attempted. -/
theorem deleteNetwork_missing_crash_cex :
    (DeleteNetwork envAllOk dOvs rDelMiss).1 = Res.crash ∧
    (DeleteNetwork envAllOk dOvs rDelMiss).2.2 = [] :=
  ⟨ rfl, rfl ⟩

/-- Claim C3 amended: for every DeleteNetwork call whose network
identifier has no registry entry, the call panics on the nil registry
entry — it neither returns an error nor succeeds silently — the
registry is unchanged and no bridge teardown is attempted. -/
theorem deleteNetwork_missing_crashes (env : Env) (d : DriverState)
    (r : DeleteNetworkRequest)
    (hMiss : mapLookup d.networks r.NetworkID = none) :
    (DeleteNetwork env d r).1 = Res.crash ∧
    (DeleteNetwork env d r).2.1 = d ∧
    (DeleteNetwork env d r).2.2 = [] := by
  simp [DeleteNetwork, hMiss]

/-- Witness for the amended C3 at a concrete unregistered identifier. -/
theorem deleteNetwork_missing_crashes_witness :
    (DeleteNetwork envAllOk dOvs rDelMiss).1 = Res.crash ∧
    (DeleteNetwork envAllOk dOvs rDelMiss).2.1 = dOvs ∧
    (DeleteNetwork envAllOk dOvs rDelMiss).2.2 = [] :=
  deleteNetwork_missing_crashes envAllOk dOvs rDelMiss rfl

/-- Claim C9: a Leave call whose network identifier has no registry
entry does not return an error; after the link-deletion attempt it
panics dereferencing the nil registry entry, and its trace contains no
fallback lookup — Leave never consults the docker client. -/
theorem leave_missing_network_crashes (env : Env) (d : DriverState)
    (r : LeaveRequest) (tid : String)
    (htid : truncateID r.EndpointID = some tid)
    (hMiss : mapLookup d.networks r.NetworkID = none) :
    (Leave env d r).1 = Res.crash ∧
    (Leave env d r).2.2 =
      [ Event.linkDel (vethPair tid).Name (vethPair tid).PeerName ] ∧
    List.countP Event.isInspect (Leave env d r).2.2 = 0 := by
  simp [Leave, htid, hMiss, Event.isInspect]

/-- Witness for C9 at a concrete unregistered identifier. -/
theorem leave_missing_network_crashes_witness :
    (Leave envAllOk dOvs rLeaveMiss).1 = Res.crash ∧
    (Leave envAllOk dOvs rLeaveMiss).2.2 =
      [ Event.linkDel "ovs-veth0-endpo" "ethcendpo" ] ∧
    List.countP Event.isInspect (Leave envAllOk dOvs rLeaveMiss).2.2 = 0 :=
  leave_missing_network_crashes envAllOk dOvs rLeaveMiss "endpo"
    (by decide) rfl

/-- Claim C4: for every Leave call on a registered network, the trace
is exactly the link-pair deletion followed by the port deletion — so
the deletion attempt happens first and happens whatever the outcome of
the link deletion, about which nothing is assumed — and the call
returns exactly what the port deletion returns. -/
theorem leave_linkDel_before_delPort (env : Env) (d : DriverState)
    (r : LeaveRequest) (tid : String) (ns : NetworkState)
    (htid : truncateID r.EndpointID = some tid)
    (hNs : mapLookup d.networks r.NetworkID = some ns) :
    (Leave env d r).2.2 =
      [ Event.linkDel (vethPair tid).Name (vethPair tid).PeerName,
        Event.delPort ns.BridgeName ( ovsPortPrefix ++ tid) ] ∧
    (Leave env d r).1 =
      (match env.delPort ns.BridgeName ( ovsPortPrefix ++ tid) with
       | Except.ok _ => Res.ok ()
       | Except.error e => Res.err e) := by
  cases h : env.delPort ns.BridgeName ( ovsPortPrefix ++ tid) with
  | ok u => simp [Leave, htid, hNs, h]
  | error e => simp [Leave, htid, hNs, h]

/-- Witness for C4: with both the link deletion and the port deletion
failing, the link deletion is still attempted first and the
port-deletion error is the one returned. -/
theorem leave_linkDel_before_delPort_witness :
    (Leave envLeaveFail dWithNet1 rLeave1).2.2 =
      [ Event.linkDel "ovs-veth0-endpo" "ethcendpo",
        Event.delPort "ovsbr-net1x" "ovs-veth0-endpo" ] ∧
    (Leave envLeaveFail dWithNet1 rLeave1).1 = Res.err "port missing" :=
  leave_linkDel_before_delPort envLeaveFail dWithNet1 rLeave1 "endpo"
    nsNet1 (by decide) rfl

/-- Claim C5: mode resolution returns the default mode nat when the
mode key is absent, returns nat and flat unchanged, and fails with the
invalid-mode error for any other non-empty value of the mode key. -/
theorem getBridgeMode_resolution (options : Options) :
    (options.lookup modeOption = none →
      getBridgeMode options = Except.ok modeNAT) ∧
    (∀ m, options.lookup modeOption = some m →
      (m = modeNAT ∨ m = modeFlat) →
      getBridgeMode options = Except.ok m) ∧
    (∀ m, options.lookup modeOption = some m → m ≠ "" →
      m ≠ modeNAT → m ≠ modeFlat →
      getBridgeMode options = Except.error (m ++ " is not a valid mode")) := by
  refine ⟨ fun h => ?_, fun m h hm => ?_, fun m h h0 h1 h2 => ?_ ⟩
  · simp [getBridgeMode, h, defaultMode]
  · rcases hm with hm | hm <;> subst hm <;>
      simp [getBridgeMode, h, validModes, List.contains]
  · simp [getBridgeMode, h, validModes, List.contains]
    exact ⟨ h1, h2 ⟩

/-- Witness for C5 across its three branches: an absent key, the valid
value flat, and an unrecognized non-empty value. -/
theorem getBridgeMode_resolution_witness :
    getBridgeMode [] = Except.ok modeNAT ∧
    getBridgeMode [ (modeOption, "flat") ] = Except.ok "flat" ∧
    getBridgeMode [ (modeOption, "bogus") ] =
      Except.error ("bogus" ++ " is not a valid mode") :=
  ⟨ (getBridgeMode_resolution []).1 rfl,
    (getBridgeMode_resolution [ (modeOption, "flat") ]).2.1 "flat"
      (by decide) (Or.inr rfl),
    (getBridgeMode_resolution [ (modeOption, "bogus") ]).2.2 "bogus"
      (by decide) (by decide) (by decide) (by decide) ⟩

/-- Claim C6: MTU resolution never returns an error; it returns the
default 1500 when the MTU key is absent or its value fails integer
parsing, and returns the parsed integer unchanged — whatever its
magnitude or sign — when parsing succeeds. -/
theorem getBridgeMTU_resolution (options : Options) :
    (getBridgeMTU options =
      Except.ok ((atoi ((options.lookup mtuOption).getD "")).getD defaultMTU)) ∧
    (options.lookup mtuOption = none →
      getBridgeMTU options = Except.ok 1500) ∧
    (∀ v, options.lookup mtuOption = some v → atoi v = none →
      getBridgeMTU options = Except.ok 1500) ∧
    (∀ v n, options.lookup mtuOption = some v → atoi v = some n →
      getBridgeMTU options = Except.ok n) := by
  refine ⟨ getBridgeMTU_eq options, fun h => ?_, fun v h hv => ?_,
    fun v n h hv => ?_ ⟩
  · rw [getBridgeMTU_eq options, h]
    rfl
  · rw [getBridgeMTU_eq options, h]
    simp [hv, defaultMTU]
  · rw [getBridgeMTU_eq options, h]
    simp [hv]

/-- Witness for C6 across its branches: an absent key, a non-numeric
value, and a parsed value far outside any plausible MTU range. -/
theorem getBridgeMTU_resolution_witness :
    getBridgeMTU [] = Except.ok 1500 ∧
    getBridgeMTU [ (mtuOption, "junk") ] = Except.ok 1500 ∧
    getBridgeMTU [ (mtuOption, "-9000") ] = Except.ok (-9000) :=
  ⟨ (getBridgeMTU_resolution []).2.1 rfl,
    (getBridgeMTU_resolution [ (mtuOption, "junk") ]).2.2.1 "junk"
      (by decide) (by decide),
    (getBridgeMTU_resolution [ (mtuOption, "-9000") ]).2.2.2 "-9000"
      (-9000) (by decide) (by decide) ⟩

/-- When configuration resolution succeeds, `setupNetworkState`
registers the resolved state, initializes the bridge, and on
bridge-initialization success returns the registered state. -/
theorem setupNetworkState_success (env : Env) (d : DriverState)
    (id : String) (options : Options) (gateway bn md : String)
    (hName : getBridgeName id options = Res.ok bn)
    (hMode : getBridgeMode options = Except.ok md)
    (hInit : env.initBridge id = Except.ok ()) :
    setupNetworkState env d id options gateway =
      (Res.ok (resolvedState options bn md gateway),
       { d with networks :=
           mapInsert d.networks id (resolvedState options bn md gateway) },
       [ Event.initBridge id ]) := by
  unfold setupNetworkState
  rw [hName, getBridgeMTU_eq, hMode, hInit]
  rfl

/-- When configuration resolution succeeds and bridge initialization
fails, `setupNetworkState` deletes the fresh registry entry and
returns the bridge-initialization error. -/
theorem setupNetworkState_initBridge_rollback (env : Env)
    (d : DriverState) (id : String) (options : Options)
    (gateway bn md e : String)
    (hName : getBridgeName id options = Res.ok bn)
    (hMode : getBridgeMode options = Except.ok md)
    (hInit : env.initBridge id = Except.error e) :
    (setupNetworkState env d id options gateway).1 = Res.err e ∧
    mapLookup (setupNetworkState env d id options gateway).2.1.networks
      id = none := by
  unfold setupNetworkState
  rw [hName, getBridgeMTU_eq, hMode, hInit]
  exact ⟨ rfl, mapLookup_mapErase_self _ _ ⟩

/-- Claim C1: when configuration resolution succeeds (bridge name and
mode both resolve) but bridge initialization fails, CreateNetwork
returns the bridge-initialization error and the network identifier is
absent from the registry afterward. -/
theorem createNetwork_initBridge_rollback (env : Env) (d : DriverState)
    (r : CreateNetworkRequest) (ipam : IPAMData) (rest : List IPAMData)
    (bn md e : String)
    (hIpam : r.IPv4Data = ipam :: rest)
    (hName : getBridgeName r.NetworkID (stringOptions r.ReqOptions) =
      Res.ok bn)
    (hMode : getBridgeMode (stringOptions r.ReqOptions) = Except.ok md)
    (hInit : env.initBridge r.NetworkID = Except.error e) :
    (CreateNetwork env d r).1 = Res.err e ∧
    mapLookup (CreateNetwork env d r).2.1.networks r.NetworkID = none := by
  have hs := setupNetworkState_initBridge_rollback env d r.NetworkID
    (stringOptions r.ReqOptions) ipam.Gateway bn md e hName hMode hInit
  simp only [CreateNetwork, hIpam]
  refine ⟨ ?_, hs.2 ⟩
  rw [hs.1]
  rfl

/-- Witness for C1: bridge initialization fails on a default-option
request; the error surfaces and the registry has no entry afterward. -/
theorem createNetwork_initBridge_rollback_witness :
    (CreateNetwork envInitFail dOvs rCreate1).1 = Res.err "ovsdb down" ∧
    mapLookup (CreateNetwork envInitFail dOvs rCreate1).2.1.networks
      "net1x" = none :=
  createNetwork_initBridge_rollback envInitFail dOvs rCreate1
    ({ Gateway := "10.0.0.1" }) [] "ovsbr-net1x" "nat" "ovsdb down"
    rfl rfl rfl rfl

/-- On a registry miss with the docker client available, when the
inspected network belongs to a different driver, `findNetworkState`
makes exactly the one inspection call and fails with the
not-our-network error, leaving the state unchanged. -/
theorem findNetworkState_foreign (env : Env) (d : DriverState)
    (id : String) (net : InspectedNetwork)
    (hMiss : mapLookup d.networks id = none)
    (hCli : d.hasDockerClient = true)
    (hIns : env.inspectNetwork id = Except.ok net)
    (hDrv : net.Driver ≠ d.name) :
    findNetworkState env d id =
      (Res.err "Not our network", d, [ Event.inspect id ]) := by
  simp [findNetworkState, hMiss, hCli, hIns, hDrv]

/-- Claim C2 counterexample: a Join on an unregistered network whose
fallback lookup reports a foreign driver does make exactly one
fallback lookup and does fail, but its trace already holds two kernel
mutations — the link-pair creation and the bring-up happen before the
lookup — contradicting the claim that no kernel mutation is performed. -/
theorem join_foreign_driver_kernel_mutation_cex :
    (Join envForeign dOvs rJoinMiss).1 = Res.err "Not our network" ∧
    List.countP Event.isInspect (Join envForeign dOvs rJoinMiss).2.2 = 1 ∧
    List.countP Event.isKernelMutation
      (Join envForeign dOvs rJoinMiss).2.2 = 2 :=
  ⟨ rfl, rfl, rfl ⟩

/-- Claim C2 amended: for every Join call whose link-pair creation and
bring-up succeed and whose network identifier has no registry entry,
with the docker client available, exactly one fallback lookup is
performed; when the fallback reports a foreign driver name, Join fails
with the not-our-network error and performs no switch mutation — but
the trace shows the two kernel mutations already performed before the
lookup. -/
theorem join_foreign_driver_no_switch_mutation (env : Env)
    (d : DriverState) (r : JoinRequest) (tid : String)
    (net : InspectedNetwork)
    (htid : truncateID r.EndpointID = some tid)
    (hAdd : env.linkAdd (vethPair tid) = Except.ok ())
    (hUp : env.linkSetUp (vethPair tid) = Except.ok ())
    (hMiss : mapLookup d.networks r.NetworkID = none)
    (hCli : d.hasDockerClient = true)
    (hIns : env.inspectNetwork r.NetworkID = Except.ok net)
    (hDrv : net.Driver ≠ d.name) :
    (Join env d r).1 = Res.err "Not our network" ∧
    (Join env d r).2.2 =
      [ Event.linkAdd (vethPair tid).Name (vethPair tid).PeerName,
        Event.linkSetUp (vethPair tid).Name,
        Event.inspect r.NetworkID ] ∧
    List.countP Event.isInspect (Join env d r).2.2 = 1 ∧
    List.countP Event.isSwitchMutation (Join env d r).2.2 = 0 ∧
    List.countP Event.isKernelMutation (Join env d r).2.2 = 2 := by
  have hf := findNetworkState_foreign env d r.NetworkID net hMiss hCli
    hIns hDrv
  simp [Join, htid, hAdd, hUp, hf, Event.isInspect,
    Event.isSwitchMutation, Event.isKernelMutation]

/-- Witness for the amended C2 at a concrete foreign-network fallback. -/
theorem join_foreign_driver_no_switch_mutation_witness :
    (Join envForeign dOvs rJoinMiss).1 = Res.err "Not our network" ∧
    (Join envForeign dOvs rJoinMiss).2.2 =
      [ Event.linkAdd "ovs-veth0-endpo" "ethcendpo",
        Event.linkSetUp "ovs-veth0-endpo",
        Event.inspect "net99" ] ∧
    List.countP Event.isInspect (Join envForeign dOvs rJoinMiss).2.2 = 1 ∧
    List.countP Event.isSwitchMutation
      (Join envForeign dOvs rJoinMiss).2.2 = 0 ∧
    List.countP Event.isKernelMutation
      (Join envForeign dOvs rJoinMiss).2.2 = 2 :=
  join_foreign_driver_no_switch_mutation envForeign dOvs rJoinMiss
    "endpo" foreignNetwork (by decide) rfl rfl rfl rfl rfl (by decide)

/-- Claim C7 counterexample: CreateNetwork with the four-character
identifier "net1", empty options and IPAM gateway 10.0.0.1 does not
succeed: identifier truncation takes the first five characters of a
four-character string, a panic, so the call crashes — even with every
external call succeeding — and registers nothing. -/
theorem createNetwork_net1_crash_cex :
    (CreateNetwork envAllOk dOvs rCreateNet1).1 = Res.crash ∧
    mapLookup (CreateNetwork envAllOk dOvs rCreateNet1).2.1.networks
      "net1" = none :=
  ⟨ rfl, rfl ⟩

/-- Claim C7 amended: with a network identifier of at least five
characters — here "net1x" — an empty options map and IPAM gateway
10.0.0.1, when bridge initialization succeeds CreateNetwork succeeds
and registers a state whose bridge name is the bridge prefix followed
by the first five characters of the identifier, with MTU 1500, mode
nat and gateway 10.0.0.1; the four-character "net1" of the original
claim makes the call crash in identifier truncation instead. -/
theorem createNetwork_net1x_scenario (env : Env)
    (hInit : env.initBridge "net1x" = Except.ok ()) :
    (CreateNetwork env dOvs rCreate1).1 = Res.ok () ∧
    mapLookup (CreateNetwork env dOvs rCreate1).2.1.networks "net1x" =
      some nsNet1 := by
  have hs := setupNetworkState_success env dOvs "net1x" [] "10.0.0.1"
    "ovsbr-net1x" "nat" (by decide) rfl hInit
  have hcn : CreateNetwork env dOvs rCreate1 =
      (resUnit (setupNetworkState env dOvs "net1x" [] "10.0.0.1").1,
       (setupNetworkState env dOvs "net1x" [] "10.0.0.1").2.1,
       (setupNetworkState env dOvs "net1x" [] "10.0.0.1").2.2) := rfl
  rw [hcn, hs]
  exact ⟨ rfl, by decide ⟩

/-- Witness for the amended C7 with every external call succeeding. -/
theorem createNetwork_net1x_scenario_witness :
    (CreateNetwork envAllOk dOvs rCreate1).1 = Res.ok () ∧
    mapLookup (CreateNetwork envAllOk dOvs rCreate1).2.1.networks
      "net1x" = some nsNet1 :=
  createNetwork_net1x_scenario envAllOk rfl

/-- A Join on a registered network with all three external calls
succeeding returns the peer-side name of the veth pair built from the
truncated endpoint identifier, the container interface prefix, and the
registered gateway. -/
theorem join_registered_success (env : Env) (d : DriverState)
    (r : JoinRequest) (tid : String) (ns : NetworkState)
    (htid : truncateID r.EndpointID = some tid)
    (hNs : mapLookup d.networks r.NetworkID = some ns)
    (hAdd : env.linkAdd (vethPair tid) = Except.ok ())
    (hUp : env.linkSetUp (vethPair tid) = Except.ok ())
    (hPort : env.addPort ns.BridgeName (vethPair tid).Name 0 =
      Except.ok ()) :
    (Join env d r).1 =
      Res.ok ({ SrcName := (vethPair tid).PeerName,
                DstPrefix := containerEthName,
                Gateway := ns.Gateway }) := by
  have hf : findNetworkState env d r.NetworkID = (Res.ok ns, d, []) := by
    unfold findNetworkState
    rw [hNs]
  simp [Join, htid, hAdd, hUp, hf, hPort]

/-- Claim C8 counterexample: Join on "net1" — registry-seeded with
gateway 10.0.0.1, since creating "net1" itself crashes — and endpoint
"endpoint12345" returns the peer name "ethcendpo", the peer prefix
plus the first five characters "endpo" of the endpoint identifier, and
not the "ethcendp1" the claim states. -/
theorem join_net1_peer_name_cex :
    (Join envAllOk dWithNet1 rJoin1).1 =
      Res.ok ({ SrcName := "ethcendpo", DstPrefix := "eth",
                Gateway := "10.0.0.1" }) ∧
    ("ethcendpo" : String) ≠ "ethcendp1" :=
  ⟨ rfl, by decide ⟩

/-- Claim C8 amended: Join on a network identifier "net1" whose
registry entry carries gateway 10.0.0.1 and endpoint identifier
"endpoint12345" returns the peer-side name "ethcendpo" — the peer
prefix plus the truncated endpoint identifier "endpo" — and gateway
10.0.0.1, when the kernel and switch calls succeed. -/
theorem join_net1_scenario (env : Env) (d : DriverState)
    (ns : NetworkState)
    (hNs : mapLookup d.networks "net1" = some ns)
    (hGw : ns.Gateway = "10.0.0.1")
    (hAdd : env.linkAdd (vethPair "endpo") = Except.ok ())
    (hUp : env.linkSetUp (vethPair "endpo") = Except.ok ())
    (hPort : env.addPort ns.BridgeName (vethPair "endpo").Name 0 =
      Except.ok ()) :
    (Join env d rJoin1).1 =
      Res.ok ({ SrcName := "ethcendpo", DstPrefix := containerEthName,
                Gateway := "10.0.0.1" }) := by
  have h := join_registered_success env d rJoin1 "endpo" ns (by decide)
    hNs hAdd hUp hPort
  rw [h, hGw]
  decide

/-- Witness for the amended C8 at the concrete registry and
environment of the scenario. -/
theorem join_net1_scenario_witness :
    (Join envAllOk dWithNet1 rJoin1).1 =
      Res.ok ({ SrcName := "ethcendpo", DstPrefix := containerEthName,
                Gateway := "10.0.0.1" }) :=
  join_net1_scenario envAllOk dWithNet1 nsNet1 (by decide) rfl rfl rfl rfl
